import Mathlib

/-!
Verification of the `PathEnd` class hierarchy of OpenSTA
(`src/include/sta/PathEnd.hh`).

The repository supplies only the header: inline member bodies (the type
predicates, the `dataClkPath` / `macroClkTreeDelay` / `setupDefaultCycles`
defaults and overrides, the cache fields `crpr_` / `crpr_valid_`) are embedded
directly from that source.  Member functions whose bodies live in the
implementation file, which is not part of the sources given, are modelled from
the specification (spec.md); each such definition carries a doc comment
starting with `Modelled from the spec:` naming the missing function.

Times, delays and slacks are modelled as exact rationals.
-/

namespace PathEndModel

/-- The `PathEnd::Type` enumeration (PathEnd.hh lines 62-69). -/
inductive PEType
  | unconstrained
  | check
  | data_check
  | latch_check
  | output_delay
  | gated_clk
  | path_delay
deriving DecidableEq

/-- The seven concrete (instantiable) `PathEnd` variants of the hierarchy
(PathEnd.hh lines 47-58): `PathEndUnconstrained`, `PathEndCheck`,
`PathEndLatchCheck`, `PathEndOutputDelay`, `PathEndGatedClock`,
`PathEndDataCheck`, `PathEndPathDelay`. -/
inductive Variant
  | unconstrainedV
  | checkV
  | latchCheckV
  | outputDelayV
  | gatedClockV
  | dataCheckV
  | pathDelayV
deriving DecidableEq

/-- Virtual dispatch of `isUnconstrained`: base default returns false
(PathEnd.hh line 90).  Modelled from the spec: the override
`PathEndUnconstrained::isUnconstrained` (declared PathEnd.hh line 230) has its
body outside the given sources; per spec section 3 the predicate of the
concrete variant is the true one. -/
def isUnconstrained : Variant → Bool
  | .unconstrainedV => true
  | _ => false

/-- Virtual dispatch of `isCheck`: base default false (PathEnd.hh line 91),
`PathEndCheck::isCheck` returns true (line 329), and `PathEndLatchCheck`
re-overrides it to false (line 367) although it derives from `PathEndCheck`. -/
def isCheck : Variant → Bool
  | .checkV => true
  | _ => false

/-- Virtual dispatch of `isDataCheck`: base default false (PathEnd.hh line 92),
`PathEndDataCheck::isDataCheck` returns true (line 512). -/
def isDataCheck : Variant → Bool
  | .dataCheckV => true
  | _ => false

/-- Virtual dispatch of `isLatchCheck`: base default false (PathEnd.hh line
93), `PathEndLatchCheck::isLatchCheck` returns true (line 368). -/
def isLatchCheck : Variant → Bool
  | .latchCheckV => true
  | _ => false

/-- Virtual dispatch of `isOutputDelay`: base default false (PathEnd.hh line
94), `PathEndOutputDelay::isOutputDelay` returns true (line 434). -/
def isOutputDelay : Variant → Bool
  | .outputDelayV => true
  | _ => false

/-- Virtual dispatch of `isGatedClock`: base default false (PathEnd.hh line
95), `PathEndGatedClock::isGatedClock` returns true (line 480). -/
def isGatedClock : Variant → Bool
  | .gatedClockV => true
  | _ => false

/-- Virtual dispatch of `isPathDelay`: base default false (PathEnd.hh line
96), `PathEndPathDelay::isPathDelay` returns true (line 566). -/
def isPathDelay : Variant → Bool
  | .pathDelayV => true
  | _ => false

/-- Modelled from the spec: the pure-virtual `type()` (PathEnd.hh line 97) is
implemented by each concrete variant outside the given sources; per spec
section 3 the discriminant identifies the concrete variant, so each variant
reports its own enumerator (the latch check, per the class comment lines
47-58, reports `latch_check` although it derives from `PathEndCheck`). -/
def peType : Variant → PEType
  | .unconstrainedV => .unconstrained
  | .checkV => .check
  | .latchCheckV => .latch_check
  | .outputDelayV => .output_delay
  | .gatedClockV => .gated_clk
  | .dataCheckV => .data_check
  | .pathDelayV => .path_delay

/-- The seven type predicates of a path end, in the declaration order of
PathEnd.hh lines 90-96. -/
def predicateList (v : Variant) : List Bool :=
  [isUnconstrained v, isCheck v, isDataCheck v, isLatchCheck v,
   isOutputDelay v, isGatedClock v, isPathDelay v]

/-- The predicate named by a `PathEnd::Type` enumerator. -/
def predOfType : PEType → Variant → Bool
  | .unconstrained => isUnconstrained
  | .check => isCheck
  | .data_check => isDataCheck
  | .latch_check => isLatchCheck
  | .output_delay => isOutputDelay
  | .gated_clk => isGatedClock
  | .path_delay => isPathDelay

/-- C1: for every path end variant exactly one of the seven type predicates
`isUnconstrained/isCheck/isDataCheck/isLatchCheck/isOutputDelay/isGatedClock/
isPathDelay` is true, and the true one is the predicate named by `type()`; in
particular a latch-check path end has `isCheck` false, `isLatchCheck` true and
`type() = latch_check`. -/
theorem c1_type_predicates_partition (v : Variant) :
    (predicateList v).count true = 1 ∧
    predOfType (peType v) v = true ∧
    isCheck Variant.latchCheckV = false ∧
    isLatchCheck Variant.latchCheckV = true ∧
    peType Variant.latchCheckV = PEType.latch_check := by
  refine ⟨?_, ?_, rfl, rfl, rfl⟩ <;> cases v <;> rfl

/-- A propagated path handed to a path end by the search engine; its identity
is all the claims here need. -/
structure Path where
  id : Nat
deriving DecidableEq

/-- A concrete path end object: the variant tag together with the owned paths
held by that variant (`path_` for all, `clk_path_` for the clock-constrained
ones, `disable_path_` for the latch check (PathEnd.hh line 412),
`data_clk_path_` for the data check (line 535)). -/
inductive PathEndObj
  | unconstrainedE (path_ : Path)
  | checkE (path_ : Path) (clk_path_ : Path)
  | latchCheckE (path_ : Path) (clk_path_ : Path) (disable_path_ : Path)
  | outputDelayE (path_ : Path) (clk_path_ : Path)
  | gatedClockE (path_ : Path) (clk_path_ : Path)
  | dataCheckE (path_ : Path) (clk_path_ : Path) (data_clk_path_ : Path)
  | pathDelayE (path_ : Path) (clk_path_ : Path)
deriving DecidableEq

/-- The variant tag of a path end object. -/
def variantOf : PathEndObj → Variant
  | .unconstrainedE _ => .unconstrainedV
  | .checkE _ _ => .checkV
  | .latchCheckE _ _ _ => .latchCheckV
  | .outputDelayE _ _ => .outputDelayV
  | .gatedClockE _ _ => .gatedClockV
  | .dataCheckE _ _ _ => .dataCheckV
  | .pathDelayE _ _ => .pathDelayV

/-- Virtual dispatch of `dataClkPath`: the base default returns `nullptr`
(PathEnd.hh line 149), modelled as `none`; `PathEndDataCheck::dataClkPath`
returns the owned `data_clk_path_` (line 518). -/
def dataClkPath : PathEndObj → Option Path
  | .dataCheckE _ _ dcp => some dcp
  | _ => none

/-- Virtual dispatch of `macroClkTreeDelay`: the base default returns `0.0`
(PathEnd.hh line 108); only `PathEndCheck` (line 331) overrides it, with a
body outside the given sources (its result, inherited by `PathEndLatchCheck`,
is the parameter `checkMacroDelay`). -/
def macroClkTreeDelay (checkMacroDelay : ℚ) : PathEndObj → ℚ
  | .checkE _ _ => checkMacroDelay
  | .latchCheckE _ _ _ => checkMacroDelay
  | _ => 0

/-- C9: `dataClkPath()` on any variant other than the data check returns the
inert `none` value rather than failing, on a data check it returns the owned
second (reference) path, and `macroClkTreeDelay` is zero on every variant
that does not override it. -/
theorem c9_inert_defaults (p : PathEndObj) (d : ℚ) :
    (variantOf p ≠ Variant.dataCheckV → dataClkPath p = none) ∧
    (∀ pp cp dcp, dataClkPath (.dataCheckE pp cp dcp) = some dcp) ∧
    (variantOf p ≠ Variant.checkV → variantOf p ≠ Variant.latchCheckV →
      macroClkTreeDelay d p = 0) := by
  refine ⟨?_, fun pp cp dcp => rfl, ?_⟩ <;>
    cases p <;> simp [variantOf, dataClkPath, macroClkTreeDelay]

/-- Closed instance of `c9_inert_defaults`: an unconstrained path end has no
data clock path and zero macro clock tree delay. -/
theorem c9_inert_defaults_witness :
    dataClkPath (.unconstrainedE ⟨0⟩) = none ∧
    macroClkTreeDelay 5 (.unconstrainedE ⟨0⟩) = 0 :=
  ⟨(c9_inert_defaults (.unconstrainedE ⟨0⟩) 5).1 (by decide),
   (c9_inert_defaults (.unconstrainedE ⟨0⟩) 5).2.2 (by decide) (by decide)⟩

/-- Timing role of a check: setup-like (late/max analysis) or hold-like
(early/min analysis); spec sections 4.3-4.4. -/
inductive Role
  | setup
  | hold
deriving DecidableEq

/-- Modelled from the spec: the analysis inputs a clock-constrained path end
reads through the analysis context (`StaState`) — nominal target clock time,
target clock uncertainty, check margin, the magnitude of the common
clock-tree delay found by the CRPR walk, the check role, the data path's
arrival, and the source clock offset.  The member functions of
`PathEndClkConstrained` combining them (PathEnd.hh lines 242-260) are
implemented outside the given sources. -/
structure ClkCtx where
  targetClkTime : ℚ
  targetClkUncertainty : ℚ
  marginVal : ℚ
  crprMag : ℚ
  role : Role
  dataArrival : ℚ
  srcClkOffset : ℚ
deriving DecidableEq

/-- Modelled from the spec: `PathEnd::checkCrpr` (PathEnd.hh lines 142-144;
body outside the given sources) returns the CRPR signed with respect to the
check type — positive for setup, negative for hold (header comment). -/
def checkCrpr (c : ClkCtx) : ℚ :=
  match c.role with
  | .setup => c.crprMag
  | .hold => -c.crprMag

/-- Modelled from the spec: required time for a check-like clock-constrained
variant, `targetClkTime − targetClkUncertainty − margin + crpr` (spec section
4.3), generic in the CRPR actually applied so the no-CRPR variant can force
it to zero. -/
def requiredTimeWith (crprVal : ℚ) (c : ClkCtx) : ℚ :=
  c.targetClkTime - c.targetClkUncertainty - c.marginVal + crprVal

/-- Modelled from the spec: `PathEndClkConstrained::requiredTime` (PathEnd.hh
line 258; body outside the given sources), applying the signed CRPR. -/
def requiredTime (c : ClkCtx) : ℚ :=
  requiredTimeWith (checkCrpr c) c

/-- Modelled from the spec: `PathEndClkConstrained::requiredTimeNoCrpr`
(PathEnd.hh line 279; body outside the given sources): the required time with
CRPR forced to zero. -/
def requiredTimeNoCrpr (c : ClkCtx) : ℚ :=
  requiredTimeWith 0 c

/-- Modelled from the spec: `PathEnd::dataArrivalTimeOffset` (PathEnd.hh line
103; body outside the given sources): the data arrival adjusted by the source
clock offset so all variants report arrival relative to the same cycle origin
(spec section 4.1). -/
def dataArrivalTimeOffset (c : ClkCtx) : ℚ :=
  c.dataArrival - c.srcClkOffset

/-- Modelled from the spec: `PathEnd::requiredTimeOffset` (PathEnd.hh lines
105-106; body outside the given sources): the required time adjusted by the
same source clock offset as `dataArrivalTimeOffset`, written out in full. -/
def requiredTimeOffset (c : ClkCtx) : ℚ :=
  c.targetClkTime - c.targetClkUncertainty - c.marginVal + checkCrpr c
    - c.srcClkOffset

/-- Modelled from the spec: `PathEndClkConstrained::slack` (PathEnd.hh line
259; body outside the given sources): required time minus offset arrival,
written out in full (spec section 4.3). -/
def slack (c : ClkCtx) : ℚ :=
  c.targetClkTime - c.targetClkUncertainty - c.marginVal + checkCrpr c
    - (c.dataArrival - c.srcClkOffset)

/-- Modelled from the spec: `PathEndClkConstrained::slackNoCrpr` (PathEnd.hh
line 260; body outside the given sources): the same difference with the
required time computed with CRPR forced to zero, written out in full. -/
def slackNoCrpr (c : ClkCtx) : ℚ :=
  c.targetClkTime - c.targetClkUncertainty - c.marginVal + 0
    - (c.dataArrival - c.srcClkOffset)

/-- C2: for every clock-constrained path end, `slack` equals `requiredTime`
minus `dataArrivalTimeOffset`, and `slackNoCrpr` equals the same difference
with the required time computed with CRPR forced to zero. -/
theorem c2_slack_is_required_minus_offset_arrival (c : ClkCtx) :
    slack c = requiredTime c - dataArrivalTimeOffset c ∧
    slackNoCrpr c = requiredTimeNoCrpr c - dataArrivalTimeOffset c ∧
    requiredTimeNoCrpr c = requiredTimeWith 0 c := by
  refine ⟨?_, ?_, rfl⟩ <;>
    simp [slack, slackNoCrpr, requiredTime, requiredTimeNoCrpr,
      requiredTimeWith, dataArrivalTimeOffset]

/-- C3: for every path end overriding `crpr`, `slack` equals `slackNoCrpr`
plus the signed CRPR `checkCrpr`, whose sign follows the check role: the
CRPR magnitude is added for setup-like roles and subtracted for hold-like
roles. -/
theorem c3_slack_decomposes_into_noCrpr_plus_signed_crpr (c : ClkCtx) :
    slack c = slackNoCrpr c + checkCrpr c ∧
    (c.role = Role.setup → checkCrpr c = c.crprMag) ∧
    (c.role = Role.hold → checkCrpr c = -c.crprMag) := by
  refine ⟨?_, fun h => ?_, fun h => ?_⟩
  · simp [slack, slackNoCrpr]; ring
  · simp [checkCrpr, h]
  · simp [checkCrpr, h]

/-- Closed instance of the C3 theorem at a concrete setup-role context. -/
theorem c3_slack_decomposes_witness :
    slack ⟨10, 1, 2, 3, Role.setup, 6, 0⟩
        = slackNoCrpr ⟨10, 1, 2, 3, Role.setup, 6, 0⟩
          + checkCrpr ⟨10, 1, 2, 3, Role.setup, 6, 0⟩ ∧
    checkCrpr ⟨10, 1, 2, 3, Role.setup, 6, 0⟩ = (3 : ℚ) :=
  ⟨(c3_slack_decomposes_into_noCrpr_plus_signed_crpr
      ⟨10, 1, 2, 3, Role.setup, 6, 0⟩).1,
   (c3_slack_decomposes_into_noCrpr_plus_signed_crpr
      ⟨10, 1, 2, 3, Role.setup, 6, 0⟩).2.1 rfl⟩

/-- The per-instance CRPR cache of `PathEndClkConstrained`: the fields
`crpr_` and `crpr_valid_` (PathEnd.hh lines 282-283). -/
structure CrprCache where
  crpr_ : ℚ
  crpr_valid_ : Bool
deriving DecidableEq

/-- Modelled from the spec: `PathEndClkConstrained::crpr` (PathEnd.hh line
257; body outside the given sources).  If the validity flag is unset it runs
the shared clock-tree walk (whose result is the parameter `computed`), stores
the result in `crpr_`, sets `crpr_valid_`, and returns it; otherwise it
returns the cached value.  The third component counts how many walks the
call performed (1 on a miss, 0 on a hit). -/
def crprRead (computed : ℚ) (s : CrprCache) : ℚ × CrprCache × Nat :=
  if s.crpr_valid_ then (s.crpr_, s, 0)
  else (computed, ⟨computed, true⟩, 1)

/-- C4: the CRPR of a clock-constrained path end is computed at most once per
instance: after any call the validity flag is set, a second call on the
resulting instance returns exactly the first call's value, leaves the cache
unchanged and performs no recomputation, and a first call on a fresh (invalid)
cache performs exactly one computation and stores its result. -/
theorem c4_crpr_computed_at_most_once (computed : ℚ) (s : CrprCache) :
    (crprRead computed s).2.1.crpr_valid_ = true ∧
    (crprRead computed (crprRead computed s).2.1).1
        = (crprRead computed s).1 ∧
    (crprRead computed (crprRead computed s).2.1).2.1
        = (crprRead computed s).2.1 ∧
    (crprRead computed (crprRead computed s).2.1).2.2 = 0 ∧
    (s.crpr_valid_ = false →
      (crprRead computed s).2.2 = 1 ∧ (crprRead computed s).1 = computed) := by
  cases h : s.crpr_valid_ <;>
    simp [crprRead, h]

/-- Closed instance of the C4 theorem on a fresh cache: the first read
computes once, the second read returns the identical cached value with no
recomputation. -/
theorem c4_crpr_computed_witness :
    (crprRead 5 ⟨0, false⟩).2.2 = 1 ∧
    (crprRead 5 ⟨0, false⟩).1 = 5 ∧
    (crprRead 5 (crprRead 5 ⟨0, false⟩).2.1).1 = (crprRead 5 ⟨0, false⟩).1 ∧
    (crprRead 5 (crprRead 5 ⟨0, false⟩).2.1).2.2 = 0 :=
  ⟨((c4_crpr_computed_at_most_once 5 ⟨0, false⟩).2.2.2.2 rfl).1,
   ((c4_crpr_computed_at_most_once 5 ⟨0, false⟩).2.2.2.2 rfl).2,
   (c4_crpr_computed_at_most_once 5 ⟨0, false⟩).2.1,
   (c4_crpr_computed_at_most_once 5 ⟨0, false⟩).2.2.2.1⟩

/-- Virtual dispatch of `setupDefaultCycles`: the base default returns 1
(PathEnd.hh line 150); `PathEndDataCheck::setupDefaultCycles` returns 0
("setup uses zero cycle default", lines 531-532). -/
def setupDefaultCycles : Variant → Int
  | .dataCheckV => 0
  | _ => 1

/-- Modelled from the spec: the default cycle count fed to the multicycle
adjustment (spec section 4.4): the variant's `setupDefaultCycles` for
setup-like checks and 0 for hold-like checks. -/
def defaultCycles (r : Role) (v : Variant) : Int :=
  match r with
  | .setup => setupDefaultCycles v
  | .hold => 0

/-- Modelled from the spec: `PathEnd::checkSetupMcpAdjustment` and
`PathEndClkConstrainedMcp::targetClkMcpAdjustment` (PathEnd.hh lines 194-198
and 290; bodies outside the given sources): when a multicycle-path exception
with path multiplier `mult` applies, the target clock edge shifts by
`(mult − default_cycles) × period` of the target clock; when none applies the
adjustment is zero. -/
def targetClkMcpAdjustment (mcp : Option Int) (default_cycles : Int)
    (period : ℚ) : ℚ :=
  match mcp with
  | some mult => ((mult : ℚ) - (default_cycles : ℚ)) * period
  | none => 0

/-- C5: the multicycle adjustment is `(pathMultiplier − defaultCycles) ×
targetClockPeriod` when an exception applies and zero when none applies;
`defaultCycles` is the variant's setup default (1, except 0 for data checks)
for setup-like checks and 0 for hold-like checks; with period 10, default
setup cycles 1 and multiplier 2 the adjustment is +10. -/
theorem c5_target_clk_mcp_adjustment (v : Variant)
    (mult default_cycles : Int) (period : ℚ) :
    targetClkMcpAdjustment (some mult) default_cycles period
      = ((mult : ℚ) - (default_cycles : ℚ)) * period ∧
    targetClkMcpAdjustment none default_cycles period = 0 ∧
    (v ≠ Variant.dataCheckV → setupDefaultCycles v = 1) ∧
    setupDefaultCycles Variant.dataCheckV = 0 ∧
    defaultCycles Role.setup v = setupDefaultCycles v ∧
    defaultCycles Role.hold v = 0 ∧
    targetClkMcpAdjustment (some 2)
      (defaultCycles Role.setup Variant.checkV) 10 = 10 := by
  refine ⟨rfl, rfl, fun h => ?_, rfl, rfl, rfl, ?_⟩
  · cases v <;> first | rfl | exact absurd rfl h
  · norm_num [targetClkMcpAdjustment, defaultCycles, setupDefaultCycles]

/-- Closed instance of the C5 theorem: an ordinary check has one default
setup cycle, and the worked example of spec section 8 gives adjustment 10. -/
theorem c5_target_clk_mcp_adjustment_witness :
    setupDefaultCycles Variant.checkV = 1 ∧
    targetClkMcpAdjustment (some 2)
      (defaultCycles Role.setup Variant.checkV) 10 = 10 :=
  ⟨(c5_target_clk_mcp_adjustment Variant.checkV 2 1 10).2.2.1
      (by decide),
   (c5_target_clk_mcp_adjustment Variant.checkV 2 1 10).2.2.2.2.2.2⟩

/-- Modelled from the spec: the required-time scale with its "no requirement"
sentinel (spec section 4.2: "treat as the maximal value on the required-time
scale, i.e. never limiting"), modelled as `WithTop ℚ` with sentinel `⊤`. -/
def noRequirementSentinel : WithTop ℚ := ⊤

/-- Modelled from the spec: `PathEndUnconstrained::requiredTime` (PathEnd.hh
line 231; body outside the given sources) returns the no-requirement
sentinel. -/
def unconstrainedRequiredTime : WithTop ℚ := noRequirementSentinel

/-- Modelled from the spec: `PathEndUnconstrained::requiredTimeOffset`
(PathEnd.hh line 232; body outside the given sources) likewise returns the
sentinel: the source clock offset of the variant is zero. -/
def unconstrainedRequiredTimeOffset : WithTop ℚ := noRequirementSentinel

/-- Modelled from the spec: `PathEndUnconstrained::slack` (PathEnd.hh line
234; body outside the given sources): always the non-limiting sentinel. -/
def unconstrainedSlack : WithTop ℚ := noRequirementSentinel

/-- Modelled from the spec: `PathEndUnconstrained::slackNoCrpr` (PathEnd.hh
line 235; body outside the given sources): always the non-limiting
sentinel. -/
def unconstrainedSlackNoCrpr : WithTop ℚ := noRequirementSentinel

/-- Modelled from the spec: `PathEndUnconstrained::sourceClkOffset`
(PathEnd.hh line 236; body outside the given sources) returns zero. -/
def unconstrainedSourceClkOffset : ℚ := 0

/-- C6: an unconstrained path end's `requiredTime` is the maximal
no-requirement sentinel of the required-time scale, its `slack` and
`slackNoCrpr` are always that same non-limiting sentinel (so never below any
other value), and its `sourceClkOffset` is zero. -/
theorem c6_unconstrained_never_limiting :
    unconstrainedRequiredTime = noRequirementSentinel ∧
    (∀ r : WithTop ℚ, r ≤ unconstrainedRequiredTime) ∧
    unconstrainedSlack = noRequirementSentinel ∧
    unconstrainedSlackNoCrpr = noRequirementSentinel ∧
    (∀ s : WithTop ℚ, s ≤ unconstrainedSlack) ∧
    unconstrainedSourceClkOffset = 0 :=
  ⟨rfl, fun _ => le_top, rfl, rfl, fun _ => le_top, rfl⟩

/-- C10: for every clock-constrained path end, `requiredTimeOffset` equals
`requiredTime` minus `sourceClkOffset` (so required and arrival offsets
shift by the same amount); for an unconstrained path end, whose
`sourceClkOffset` is zero, `requiredTimeOffset` equals `requiredTime`, the
no-requirement sentinel. -/
theorem c10_requiredTimeOffset_shifts_by_source_clk_offset (c : ClkCtx) :
    requiredTimeOffset c = requiredTime c - c.srcClkOffset ∧
    requiredTimeOffset c - dataArrivalTimeOffset c
      = requiredTime c - c.dataArrival ∧
    unconstrainedRequiredTimeOffset = unconstrainedRequiredTime ∧
    unconstrainedSourceClkOffset = 0 := by
  refine ⟨?_, ?_, rfl, rfl⟩ <;>
    simp [requiredTimeOffset, requiredTime, requiredTimeWith,
      dataArrivalTimeOffset]

/-- Modelled from the spec: the latch borrowing inputs of
`PathEndLatchCheck::latchRequired` / `latchBorrowInfo` (PathEnd.hh lines
381-396; bodies outside the given sources), spec section 4.6: the enable's
nominal pulse width, the hold/setup margin, the optional explicit
`-max_borrow` limit, the required time at the nominal closing edge (no
borrowing), and the data path's arrival. -/
structure LatchCtx where
  nomPulseWidth : ℚ
  marginVal : ℚ
  borrowLimit : Option ℚ
  nomRequired : ℚ
  dataArrival : ℚ
deriving DecidableEq

/-- Modelled from the spec: the maximum allowed borrow reported by
`latchBorrowInfo`: the explicit `-max_borrow` override when set, else the
enable pulse width minus the hold/setup margin (spec section 4.6). -/
def maxBorrow (c : LatchCtx) : ℚ :=
  match c.borrowLimit with
  | some limit => limit
  | none => c.nomPulseWidth - c.marginVal

/-- Modelled from the spec: how late the data path is relative to the
enable's nominal closing edge. -/
def latchLateness (c : LatchCtx) : ℚ :=
  c.dataArrival - c.nomRequired

/-- Modelled from the spec: the borrow granted by
`PathEndLatchCheck::latchRequired` (and reported by
`PathEndLatchCheck::borrow`, PathEnd.hh line 377): the data path's lateness
past the nominal close edge, no less than zero and bounded above by the
maximum allowed borrow. -/
def latchBorrow (c : LatchCtx) : ℚ :=
  min (max (latchLateness c) 0) (maxBorrow c)

/-- Modelled from the spec: the required time returned by
`PathEndLatchCheck::requiredTime` (PathEnd.hh line 376): the nominal-close
required time relaxed by exactly the granted borrow. -/
def latchRequired (c : LatchCtx) : ℚ :=
  c.nomRequired + latchBorrow c

/-- Modelled from the spec: the latch-check slack, required minus arrival. -/
def latchSlack (c : LatchCtx) : ℚ :=
  latchRequired c - c.dataArrival

/-- C7: the borrow granted by `latchRequired` is the data path's lateness
past the nominal close edge bounded above by the maximum allowed borrow
(the explicit `-max_borrow` when set, else pulse width minus margin), the
required time is relaxed by exactly the granted borrow, and lateness beyond
the cap shows up one-for-one as negative slack: with pulse width 8, margin 1
and data 2 late the borrow is 2 and the required time is relaxed by 2, while
data 9 late caps the borrow at 7 and leaves 2 units of negative slack. -/
theorem c7_latch_borrow_bounded_and_relaxes_required (c : LatchCtx) :
    (c.borrowLimit = none → maxBorrow c = c.nomPulseWidth - c.marginVal) ∧
    (∀ l, c.borrowLimit = some l → maxBorrow c = l) ∧
    latchBorrow c ≤ maxBorrow c ∧
    (0 ≤ latchLateness c → latchLateness c ≤ maxBorrow c →
      latchBorrow c = latchLateness c ∧ latchSlack c = 0) ∧
    latchRequired c = c.nomRequired + latchBorrow c ∧
    (0 ≤ maxBorrow c → maxBorrow c < latchLateness c →
      latchBorrow c = maxBorrow c ∧
      latchSlack c = maxBorrow c - latchLateness c ∧ latchSlack c < 0) ∧
    latchBorrow ⟨8, 1, none, 10, 12⟩ = 2 ∧
    latchRequired ⟨8, 1, none, 10, 12⟩ = 10 + 2 ∧
    latchBorrow ⟨8, 1, none, 10, 19⟩ = 7 ∧
    latchSlack ⟨8, 1, none, 10, 19⟩ = -2 := by
  refine ⟨fun h => by simp [maxBorrow, h], fun l h => by simp [maxBorrow, h],
    min_le_right _ _, fun h0 hle => ?_, rfl, fun hmb hlt => ?_,
    by norm_num [latchBorrow, latchLateness, maxBorrow, min_def, max_def],
    by norm_num [latchRequired, latchBorrow, latchLateness, maxBorrow,
      min_def, max_def],
    by norm_num [latchBorrow, latchLateness, maxBorrow, min_def, max_def],
    by norm_num [latchSlack, latchRequired, latchBorrow, latchLateness,
      maxBorrow, min_def, max_def]⟩
  · have hb : latchBorrow c = latchLateness c := by
      simp only [latchBorrow]
      rw [max_eq_left h0, min_eq_left hle]
    refine ⟨hb, ?_⟩
    simp only [latchSlack, latchRequired, hb, latchLateness]
    ring
  · have hb : latchBorrow c = maxBorrow c := by
      simp only [latchBorrow]
      rw [max_eq_left (hmb.trans hlt.le), min_eq_right hlt.le]
    have hlt2 : maxBorrow c < c.dataArrival - c.nomRequired := by
      simpa [latchLateness] using hlt
    refine ⟨hb, ?_, ?_⟩
    · simp only [latchSlack, latchRequired, hb, latchLateness]
      ring
    · simp only [latchSlack, latchRequired, hb]
      linarith

/-- Closed instance of the C7 theorem at the worked example of spec section
8: pulse width 8, margin 1, nominal required 10; data 2 late borrows 2, data
9 late is capped at the maximum borrow 7 with slack −2. -/
theorem c7_latch_borrow_witness :
    maxBorrow ⟨8, 1, none, 10, 12⟩ = 8 - 1 ∧
    latchBorrow ⟨8, 1, none, 10, 12⟩ = latchLateness ⟨8, 1, none, 10, 12⟩ ∧
    latchSlack ⟨8, 1, none, 10, 12⟩ = 0 ∧
    latchBorrow ⟨8, 1, none, 10, 19⟩ = maxBorrow ⟨8, 1, none, 10, 19⟩ ∧
    latchSlack ⟨8, 1, none, 10, 19⟩
      = maxBorrow ⟨8, 1, none, 10, 19⟩ - latchLateness ⟨8, 1, none, 10, 19⟩ ∧
    latchSlack ⟨8, 1, none, 10, 19⟩ < 0 :=
  ⟨(c7_latch_borrow_bounded_and_relaxes_required ⟨8, 1, none, 10, 12⟩).1 rfl,
   ((c7_latch_borrow_bounded_and_relaxes_required
      ⟨8, 1, none, 10, 12⟩).2.2.2.1 (by norm_num [latchLateness])
      (by norm_num [latchLateness, maxBorrow])).1,
   ((c7_latch_borrow_bounded_and_relaxes_required
      ⟨8, 1, none, 10, 12⟩).2.2.2.1 (by norm_num [latchLateness])
      (by norm_num [latchLateness, maxBorrow])).2,
   ((c7_latch_borrow_bounded_and_relaxes_required
      ⟨8, 1, none, 10, 19⟩).2.2.2.2.2.1 (by norm_num [maxBorrow])
      (by norm_num [latchLateness, maxBorrow])).1,
   ((c7_latch_borrow_bounded_and_relaxes_required
      ⟨8, 1, none, 10, 19⟩).2.2.2.2.2.1 (by norm_num [maxBorrow])
      (by norm_num [latchLateness, maxBorrow])).2.1,
   ((c7_latch_borrow_bounded_and_relaxes_required
      ⟨8, 1, none, 10, 19⟩).2.2.2.2.2.1 (by norm_num [maxBorrow])
      (by norm_num [latchLateness, maxBorrow])).2.2⟩

/-- Three-way comparison of two values of a linear order, the primitive the
cmp family of PathEnd is built on: −1, 0 or 1. -/
def cmp3 {α : Type} [LinearOrder α] (a b : α) : Int :=
  if a < b then -1 else if b < a then 1 else 0

/-- Three-way lexicographic comparison of pin names, modelled as sequences
of character codes. -/
def cmpName : List Nat → List Nat → Int
  | [], [] => 0
  | [], _ :: _ => -1
  | _ :: _, [] => 1
  | a :: as, b :: bs =>
    if a < b then -1 else if b < a then 1 else cmpName as bs

theorem cmp3_antisym {α : Type} [LinearOrder α] (a b : α) :
    cmp3 a b = -cmp3 b a := by
  unfold cmp3
  rcases lt_trichotomy a b with h | h | h
  · simp [h, asymm h]
  · subst h
    simp
  · simp [h, asymm h]

theorem cmp3_eq_zero_iff {α : Type} [LinearOrder α] (a b : α) :
    cmp3 a b = 0 ↔ a = b := by
  unfold cmp3
  rcases lt_trichotomy a b with h | h | h
  · simp [h, h.ne]
  · subst h
    simp
  · simp [h, asymm h, h.ne']

theorem cmp3_neg_iff {α : Type} [LinearOrder α] (a b : α) :
    cmp3 a b < 0 ↔ a < b := by
  unfold cmp3
  rcases lt_trichotomy a b with h | h | h
  · simp [h]
  · subst h
    simp
  · simp [h, asymm h]

theorem cmpName_antisym : ∀ as bs : List Nat, cmpName as bs = -cmpName bs as
  | [], [] => rfl
  | [], _ :: _ => rfl
  | _ :: _, [] => rfl
  | a :: as, b :: bs => by
    simp only [cmpName]
    rcases lt_trichotomy a b with h | h | h
    · simp [h, asymm h]
    · subst h
      simpa using cmpName_antisym as bs
    · simp [h, asymm h]

theorem cmpName_eq_zero_iff : ∀ as bs : List Nat,
    cmpName as bs = 0 ↔ as = bs
  | [], [] => by simp [cmpName]
  | [], _ :: _ => by simp [cmpName]
  | _ :: _, [] => by simp [cmpName]
  | a :: as, b :: bs => by
    simp only [cmpName]
    rcases lt_trichotomy a b with h | h | h
    · simp [h, h.ne]
    · subst h
      simpa using cmpName_eq_zero_iff as bs
    · simp [h, asymm h, h.ne']

theorem cmpName_neg_iff : ∀ as bs : List Nat,
    cmpName as bs < 0 ↔ List.Lex (fun x y : Nat => x < y) as bs
  | [], [] => by
    simp only [cmpName]
    constructor
    · intro h
      norm_num at h
    · intro h
      exact absurd h (List.Lex.not_nil_right _ _)
  | [], b :: bs => by
    simp only [cmpName]
    exact ⟨fun _ => List.Lex.nil, fun _ => by norm_num⟩
  | a :: as, [] => by
    simp only [cmpName]
    constructor
    · intro h
      norm_num at h
    · intro h
      exact absurd h (List.Lex.not_nil_right _ _)
  | a :: as, b :: bs => by
    simp only [cmpName]
    rcases lt_trichotomy a b with h | h | h
    · rw [if_pos h]
      constructor
      · intro _
        exact List.Lex.rel h
      · intro _
        norm_num
    · subst h
      rw [if_neg (lt_irrefl a), if_neg (lt_irrefl a),
        cmpName_neg_iff as bs]
      constructor
      · exact fun hl => List.Lex.cons hl
      · intro hl
        cases hl with
        | cons hl2 => exact hl2
        | rel h2 => exact absurd h2 (lt_irrefl a)
    · rw [if_neg (asymm h), if_pos h]
      constructor
      · intro hc
        norm_num at hc
      · intro hl
        cases hl with
        | cons hl2 => exact absurd h (lt_irrefl a)
        | rel h2 => exact absurd h2 (asymm h)

theorem cmpName_trans_neg (as bs cs : List Nat)
    (h1 : cmpName as bs < 0) (h2 : cmpName bs cs < 0) :
    cmpName as cs < 0 := by
  rw [cmpName_neg_iff] at h1 h2 ⊢
  exact IsTrans.trans as bs cs h1 h2

/-- Modelled from the spec: the observable key a path end presents to the
cmp comparator family (`PathEnd::cmp`, `cmpSlack`, `cmpArrival`,
`cmpNoCrpr`, PathEnd.hh lines 154-168, and the comparator classes
`PathEndLess` / `PathEndSlackLess` / `PathEndNoCrprLess`, lines 608-640;
bodies outside the given sources): the primary numeric value (the slack for
`cmpSlack` and `PathEndSlackLess`, the slack without CRPR for `cmpNoCrpr`
and `PathEndNoCrprLess`, the arrival for `cmpArrival`), the endpoint pin
name, and the transition index used as deterministic tie-breaks (spec
section 4.10). -/
structure PathEndKey where
  primaryVal : ℚ
  pinName : List Nat
  trIndex : Nat
deriving DecidableEq

/-- Modelled from the spec: `PathEnd::cmpSlack` (PathEnd.hh lines 160-162;
body outside the given sources): three-level lexicographic comparison on
the primary value, falling back to pin name and then transition (spec
section 4.10). -/
def cmpSlack (a b : PathEndKey) : Int :=
  if cmp3 a.primaryVal b.primaryVal ≠ 0 then cmp3 a.primaryVal b.primaryVal
  else if cmpName a.pinName b.pinName ≠ 0 then cmpName a.pinName b.pinName
  else cmp3 a.trIndex b.trIndex

/-- Modelled from the spec: `PathEndSlackLess::operator()` and
`PathEnd::less` (PathEnd.hh lines 154-156 and 620-629; bodies outside the
given sources): orders the first path end before the second when the cmp
family compares it strictly smaller. -/
def pathEndSlackLess (a b : PathEndKey) : Bool :=
  decide (cmpSlack a b < 0)

theorem cmpSlack_antisym (a b : PathEndKey) : cmpSlack a b = -cmpSlack b a := by
  unfold cmpSlack
  rw [cmp3_antisym a.primaryVal b.primaryVal,
    cmpName_antisym a.pinName b.pinName, cmp3_antisym a.trIndex b.trIndex]
  by_cases h1 : cmp3 b.primaryVal a.primaryVal = 0 <;>
    by_cases h2 : cmpName b.pinName a.pinName = 0 <;>
      simp [h1, h2, neg_ne_zero]

theorem cmpSlack_eq_zero_iff (a b : PathEndKey) : cmpSlack a b = 0 ↔ a = b := by
  unfold cmpSlack
  by_cases e1 : cmp3 a.primaryVal b.primaryVal = 0
  · by_cases e2 : cmpName a.pinName b.pinName = 0
    · rw [if_neg (by simp [e1]), if_neg (by simp [e2]), cmp3_eq_zero_iff]
      have hp := (cmp3_eq_zero_iff a.primaryVal b.primaryVal).mp e1
      have hn := (cmpName_eq_zero_iff a.pinName b.pinName).mp e2
      constructor
      · intro ht
        cases a
        cases b
        simp_all
      · intro he
        rw [he]
    · rw [if_neg (by simp [e1]), if_pos e2]
      constructor
      · exact fun h0 => absurd h0 e2
      · intro he
        exact absurd ((cmpName_eq_zero_iff _ _).mpr (by rw [he])) e2
  · rw [if_pos e1]
    constructor
    · exact fun h0 => absurd h0 e1
    · intro he
      exact absurd ((cmp3_eq_zero_iff _ _).mpr (by rw [he])) e1

/-- A negative `cmpSlack` is exactly the strict lexicographic order on
(primary value, pin name, transition index). -/
theorem cmpSlack_neg_iff (a b : PathEndKey) :
    cmpSlack a b < 0 ↔
      a.primaryVal < b.primaryVal ∨
      (a.primaryVal = b.primaryVal ∧
        List.Lex (fun x y : Nat => x < y) a.pinName b.pinName) ∨
      (a.primaryVal = b.primaryVal ∧ a.pinName = b.pinName ∧
        a.trIndex < b.trIndex) := by
  unfold cmpSlack
  by_cases e1 : cmp3 a.primaryVal b.primaryVal = 0
  · have hp := (cmp3_eq_zero_iff a.primaryVal b.primaryVal).mp e1
    rw [if_neg (by simp [e1])]
    by_cases e2 : cmpName a.pinName b.pinName = 0
    · have hn := (cmpName_eq_zero_iff a.pinName b.pinName).mp e2
      rw [if_neg (by simp [e2]), cmp3_neg_iff]
      constructor
      · exact fun h => Or.inr (Or.inr ⟨hp, hn, h⟩)
      · rintro (h | ⟨h, hl⟩ | ⟨h, hn2, ht⟩)
        · exact absurd h (by rw [hp]; exact lt_irrefl _)
        · rw [hn] at hl
          have h0 : cmpName b.pinName b.pinName = 0 :=
            (cmpName_eq_zero_iff _ _).mpr rfl
          have := (cmpName_neg_iff _ _).mpr hl
          rw [h0] at this
          norm_num at this
        · exact ht
    · rw [if_pos e2, cmpName_neg_iff]
      constructor
      · exact fun h => Or.inr (Or.inl ⟨hp, h⟩)
      · rintro (h | ⟨h, hl⟩ | ⟨h, hn2, ht⟩)
        · exact absurd h (by rw [hp]; exact lt_irrefl _)
        · exact hl
        · exact absurd hn2 (fun he => e2 ((cmpName_eq_zero_iff _ _).mpr he))
  · rw [if_pos e1, cmp3_neg_iff]
    constructor
    · exact fun h => Or.inl h
    · rintro (h | ⟨h, hl⟩ | ⟨h, hn2, ht⟩)
      · exact h
      · exact absurd h (fun he => e1 ((cmp3_eq_zero_iff _ _).mpr he))
      · exact absurd h (fun he => e1 ((cmp3_eq_zero_iff _ _).mpr he))

theorem cmpSlack_trans_neg (a b c : PathEndKey)
    (h1 : cmpSlack a b < 0) (h2 : cmpSlack b c < 0) : cmpSlack a c < 0 := by
  rw [cmpSlack_neg_iff] at h1 h2 ⊢
  rcases h1 with h1 | ⟨h1, hl1⟩ | ⟨h1, hn1, ht1⟩ <;>
    rcases h2 with h2 | ⟨h2, hl2⟩ | ⟨h2, hn2, ht2⟩
  · exact Or.inl (h1.trans h2)
  · exact Or.inl (h2 ▸ h1)
  · exact Or.inl (h2 ▸ h1)
  · exact Or.inl (h1 ▸ h2)
  · exact Or.inr (Or.inl ⟨h1.trans h2, IsTrans.trans _ _ _ hl1 hl2⟩)
  · exact Or.inr (Or.inl ⟨h1.trans h2, hn2 ▸ hl1⟩)
  · exact Or.inl (h1 ▸ h2)
  · exact Or.inr (Or.inl ⟨h1.trans h2, hn1 ▸ hl2⟩)
  · exact Or.inr (Or.inr ⟨h1.trans h2, hn1.trans hn2, ht1.trans ht2⟩)

/-- C8: the ranking comparator `cmpSlack` (standing for the whole cmp family
behind `PathEndLess`, `PathEndSlackLess` and `PathEndNoCrprLess`, which
differ only in the primary value compared) is antisymmetric
(`cmp(a,b) = −cmp(b,a)`) and transitive, compares equal exactly on
identical keys thanks to the deterministic pin-name and transition
tie-breaks, and therefore induces a strict total order: any two distinct
keys are ordered one way or the other. -/
theorem c8_cmpSlack_strict_total_order (a b c : PathEndKey) :
    cmpSlack a b = -cmpSlack b a ∧
    (cmpSlack a b < 0 → cmpSlack b c < 0 → cmpSlack a c < 0) ∧
    (cmpSlack a b = 0 ↔ a = b) ∧
    (a ≠ b → pathEndSlackLess a b = true ∨ pathEndSlackLess b a = true) ∧
    (pathEndSlackLess a b = true ↔ cmpSlack a b < 0) := by
  refine ⟨cmpSlack_antisym a b, cmpSlack_trans_neg a b c,
    cmpSlack_eq_zero_iff a b, fun hne => ?_, by simp [pathEndSlackLess]⟩
  have h0 : cmpSlack a b ≠ 0 :=
    fun h => hne ((cmpSlack_eq_zero_iff a b).mp h)
  rcases lt_or_gt_of_ne h0 with h | h
  · left
    simp [pathEndSlackLess, h]
  · right
    have ha := cmpSlack_antisym b a
    simp only [pathEndSlackLess, decide_eq_true_eq, ha]
    omega

/-- Closed instance of the C8 theorem on three concrete keys: transitivity
chains two strict comparisons, and two keys differing only in transition are
still strictly ordered. -/
theorem c8_cmpSlack_witness :
    cmpSlack ⟨1, [3], 0⟩ ⟨3, [1], 1⟩ < 0 ∧
    (pathEndSlackLess ⟨1, [3], 0⟩ ⟨1, [3], 1⟩ = true ∨
      pathEndSlackLess ⟨1, [3], 1⟩ ⟨1, [3], 0⟩ = true) :=
  ⟨(c8_cmpSlack_strict_total_order ⟨1, [3], 0⟩ ⟨2, [2], 2⟩ ⟨3, [1], 1⟩).2.1
      (by norm_num [cmpSlack, cmp3])
      (by norm_num [cmpSlack, cmp3]),
   (c8_cmpSlack_strict_total_order ⟨1, [3], 0⟩ ⟨1, [3], 1⟩ ⟨3, [1], 1⟩).2.2.2.1
      (by simp)⟩

end PathEndModel
